import Mathlib

/-!
Shallow embedding of `setup.py`, a developer-environment bootstrap script.

External effects are modelled by oracle parameters:
* the interpreter version is a triple of naturals;
* the import probe (`importlib.import_module`) and the pip install
  subprocess are boolean oracles keyed by module / package name;
* the streamlit version subprocess is a value of `SubprocResult`
  (either a completed process with exit code and stdout, or a raised
  exception carrying its message, which covers a missing binary and
  the 10-second timeout);
* `os.getenv` is a function `String → Option String`;
* the `.env.template` write either succeeds or raises an exception
  with a message.

Each function returns, alongside its Python return value, the list of
strings passed to `print` and the external effects it performed, so
that claims about console output and side effects can be stated.
-/

/-- The `(major, minor, micro)` triple of `sys.version_info`. -/
structure SysVersion where
  major : Nat
  minor : Nat
  micro : Nat
deriving DecidableEq, Repr

/-- `print_header(text)`: three `print` calls. -/
def print_header (text : String) : List String :=
  ["\n" ++ String.mk (List.replicate 60 '='),
   "  " ++ text,
   String.mk (List.replicate 60 '=')]

/-- `print_step(step, text)`: two `print` calls. -/
def print_step (step : Nat) (text : String) : List String :=
  ["\n" ++ toString step ++ ". " ++ text,
   String.mk (List.replicate 40 '-')]

/-- `check_python_version()`: compares `sys.version_info` against the
required minimum `(3, 8)` with `major >= 3 and minor >= 8`, printing the
version and a verdict line; returns the verdict. -/
def check_python_version (v : SysVersion) : Bool × List String :=
  let head := "Python version: " ++ toString v.major ++ "." ++
    toString v.minor ++ "." ++ toString v.micro
  if v.major ≥ 3 && v.minor ≥ 8 then
    (true, [head, "✅ Python version is compatible"])
  else
    (false, [head, "❌ Python 3.8+ is required"])

/-- `install_package(package)`: runs `pip install package` and reports
whether it exited successfully; the second component records the pip
invocation performed. -/
def install_package (pipOk : String → Bool) (package : String) :
    Bool × List String :=
  (pipOk package, [package])

/-- The static 13-entry `required_packages` table of
`(package display name, import probe name)` pairs. -/
def required_packages : List (String × String) :=
  [("streamlit", "streamlit"),
   ("google-generativeai", "google.generativeai"),
   ("langchain", "langchain"),
   ("langchain-community", "langchain_community"),
   ("langchain-core", "langchain_core"),
   ("langchain-qdrant", "langchain_qdrant"),
   ("qdrant-client", "qdrant_client"),
   ("pypdf", "pypdf"),
   ("beautifulsoup4", "bs4"),
   ("agno", "agno"),
   ("requests", "requests"),
   ("numpy", "numpy"),
   ("python-dotenv", "dotenv")]

/-- One iteration of the loop in `check_and_install_dependencies` on an
entry `(package_name, import_name)`: probe the import; on `ImportError`
call `install_package`.  Components: the appended `(name, success)`
result, the printed lines, and the pip invocations made. -/
def processPackage (importOk pipOk : String → Bool)
    (e : String × String) : (String × Bool) × List String × List String :=
  if importOk e.2 then
    ((e.1, true), ["✅ " ++ e.1 ++ " is installed"], [])
  else
    let inst := install_package pipOk e.1
    if inst.1 then
      ((e.1, true),
       ["❌ " ++ e.1 ++ " is not installed. Installing...",
        "✅ Successfully installed " ++ e.1],
       inst.2)
    else
      ((e.1, false),
       ["❌ " ++ e.1 ++ " is not installed. Installing...",
        "❌ Failed to install " ++ e.1],
       inst.2)

/-- The aggregate outcome of `check_and_install_dependencies`:
its returned `results` list, printed lines, the import probes issued
(one `importlib.import_module` per loop iteration), and the pip
invocations issued. -/
structure DepRun where
  results : List (String × Bool)
  output : List String
  probes : List String
  pipCalls : List String
deriving Repr

/-- `check_and_install_dependencies()`: iterates over
`required_packages`, probing each import name and installing on
failure, accumulating one result pair per entry in order. -/
def check_and_install_dependencies (importOk pipOk : String → Bool) :
    DepRun :=
  let steps := required_packages.map (processPackage importOk pipOk)
  { results := steps.map (·.1)
    output := (steps.map (·.2.1)).flatten
    probes := required_packages.map Prod.snd
    pipCalls := (steps.map (·.2.2)).flatten }

/-- The `failed_packages` list computed in `main` from the results of
`check_and_install_dependencies`. -/
def failedPackages (results : List (String × Bool)) : List String :=
  (results.filter (fun r => !r.2)).map Prod.fst

/-- The end-of-stage summary printed by `main` after the dependency
stage: the failed-package report with one manual `pip install` line per
failed package when any result failed, else the blanket success line. -/
def depSummaryOutput (results : List (String × Bool)) : List String :=
  let failed := failedPackages results
  if !failed.isEmpty then
    ["\n❌ Failed to install packages: " ++ String.intercalate ", " failed,
     "Please install them manually using:"] ++
    failed.map (fun pkg => "   pip install " ++ pkg)
  else
    ["\n✅ All dependencies are installed"]

/-- The static 4-entry `env_vars` table of
`(environment variable name, description)` pairs. -/
def env_vars : List (String × String) :=
  [("GOOGLE_API_KEY", "Google AI API Key"),
   ("QDRANT_API_KEY", "Qdrant API Key"),
   ("QDRANT_URL", "Qdrant URL"),
   ("EXA_API_KEY", "Exa AI API Key (Optional)")]

/-- Python truthiness of `os.getenv`'s result: `None` and the empty
string are falsy, any non-empty string is truthy. -/
def truthy : Option String → Bool
  | none => false
  | some s => !(s == "")

/-- Python's substring membership `needle in hay`, on character
lists. -/
def containsSub (needle : List Char) : List Char → Bool
  | [] => needle.isEmpty
  | c :: rest => needle.isPrefixOf (c :: rest) || containsSub needle rest

/-- Python's substring operator `"(Optional)" in description`. -/
def containsOptional (desc : String) : Bool :=
  containsSub "(Optional)".toList desc.toList

/-- The body of the loop in `check_environment_variables` for one
`(var_name, description)` entry: the single line it prints. -/
def envVarLine (getenv : String → Option String)
    (var_name description : String) : String :=
  let value := getenv var_name
  if truthy value then
    let v := value.getD ""
    let masked := if v.length > 8 then v.take 8 ++ "..." else v
    "✅ " ++ description ++ ": " ++ masked
  else
    let status := if containsOptional description then "⚠️" else "❌"
    status ++ " " ++ description ++ ": Not set"

/-- `check_environment_variables()`: prints one line per `env_vars`
entry; the second component records the environment variables read. -/
def check_environment_variables (getenv : String → Option String) :
    List String × List String :=
  (env_vars.map (fun e => envVarLine getenv e.1 e.2),
   env_vars.map Prod.fst)

/-- Python's `str.strip()`: the string with leading and trailing
whitespace removed. -/
def pyStrip (s : String) : String :=
  String.mk
    (((s.toList.dropWhile Char.isWhitespace).reverse.dropWhile
        Char.isWhitespace).reverse)

/-- Outcome of the `subprocess.run` call in `test_streamlit`: either
the process completed with an exit code and captured stdout, or the
invocation raised (missing executable, or the 10-second timeout). -/
inductive SubprocResult where
  | completed (returncode : Int) (stdout : String)
  | raised (msg : String)
deriving DecidableEq, Repr

/-- `test_streamlit()`: runs `python -m streamlit version` with output
captured and a 10-second timeout; exit code 0 reports success and the
stripped stdout, a non-zero exit reports a generic failure, and any
exception is caught and reported with its text.  Never raises. -/
def test_streamlit (r : SubprocResult) : Bool × List String :=
  match r with
  | .completed returncode stdout =>
    if returncode == 0 then
      (true, ["✅ Streamlit is working correctly",
              "   Version: " ++ pyStrip stdout])
    else
      (false, ["❌ Streamlit test failed"])
  | .raised e => (false, ["❌ Streamlit test error: " ++ e])

/-- The hardcoded `env_template` string written by
`create_env_template`. -/
def env_template : String :=
  "# API Keys for Agentic RAG Application\n" ++
  "# Copy this file to .env and fill in your actual API keys\n" ++
  "\n" ++
  "# Required: Google AI API Key\n" ++
  "# Get from: https://aistudio.google.com/\n" ++
  "GOOGLE_API_KEY=your_google_api_key_here\n" ++
  "\n" ++
  "# Required: Qdrant Vector Database\n" ++
  "# Get from: https://cloud.qdrant.io/\n" ++
  "QDRANT_API_KEY=your_qdrant_api_key_here\n" ++
  "QDRANT_URL=https://your-cluster.cloud.qdrant.io:6333\n" ++
  "\n" ++
  "# Optional: Exa AI for web search\n" ++
  "# Get from: https://exa.ai/\n" ++
  "EXA_API_KEY=your_exa_api_key_here\n"

/-- Helper for `pyLines`: splits a character list at `'\n'`,
accumulating the current line in reverse. -/
def splitLinesAux : List Char → List Char → List String
  | [], acc => [String.mk acc.reverse]
  | '\n' :: rest, acc => String.mk acc.reverse :: splitLinesAux rest []
  | c :: rest, acc => splitLinesAux rest (c :: acc)

/-- Observation helper: the lines of a string, split at newline
characters (Python's `s.split("\n")`). -/
def pyLines (s : String) : List String := splitLinesAux s.toList []

/-- Observation helper: whether a line of the template is an
assignment line, i.e. non-empty and not a `#` comment. -/
def isAssignLine (s : String) : Bool :=
  match s.toList with
  | [] => false
  | c :: _ => c != '#'

/-- `create_env_template()`: opens `.env.template` in mode `"w"` and
writes `env_template`; on success reports and returns `True`, on an
exception catches it, reports its text and returns `False`.  The last
component records the `(path, content)` written, if any. -/
def create_env_template (writeErr : Option String) :
    Bool × List String × Option (String × String) :=
  match writeErr with
  | none =>
    (true,
     ["✅ Created .env.template file",
      "   Copy this to .env and fill in your API keys"],
     some (".env.template", env_template))
  | some e =>
    (false, ["❌ Failed to create .env.template: " ++ e], none)

/-- Content of the file at `.env.template` after performing a recorded
write effect over a prior content (`mode "w"` truncates: the written
content replaces whatever was there). -/
def applyWrite (prior : Option String) (w : Option (String × String)) :
    Option String :=
  match w with
  | some pc => some pc.2
  | none => prior

/-- The external world `main` runs against: interpreter version and
the oracles for every effectful operation. -/
structure World where
  version : SysVersion
  importOk : String → Bool
  pipOk : String → Bool
  streamlit : SubprocResult
  getenv : String → Option String
  writeErr : Option String

/-- Everything observable about one run of `main`: its boolean return,
the printed lines, and the external effects performed. -/
structure MainRun where
  ret : Bool
  output : List String
  probes : List String
  pipCalls : List String
  streamlitRan : Bool
  envReads : List String
  fileWrite : Option (String × String)

/-- The fixed closing banner and next-step instructions printed at the
end of a completed `main` run. -/
def finalInstructions : List String :=
  print_header "Setup Complete!" ++
  ["\nNext steps:",
   "1. Copy .env.template to .env",
   "2. Fill in your API keys in the .env file",
   "3. See API_KEYS_SETUP.md for detailed instructions on getting API keys",
   "4. Run the application with: streamlit run main.py",
   "\nFor help with API keys, see: API_KEYS_SETUP.md"]

namespace Setup

/-- `main()`: the five-stage pipeline.  Stage 1 failure returns
`False` immediately; every later stage runs unconditionally and its
result never aborts the run, which ends returning `True`. -/
def main (w : World) : MainRun :=
  let header := print_header "Agentic RAG Setup and Environment Check"
  let step1 := print_step 1 "Checking Python Version"
  let ver := check_python_version w.version
  if !ver.1 then
    { ret := false
      output := header ++ step1 ++ ver.2 ++
        ["\n❌ Setup failed: Incompatible Python version"]
      probes := []
      pipCalls := []
      streamlitRan := false
      envReads := []
      fileWrite := none }
  else
    let step2 := print_step 2 "Checking and Installing Dependencies"
    let dep := check_and_install_dependencies w.importOk w.pipOk
    let summary := depSummaryOutput dep.results
    let step3 := print_step 3 "Testing Streamlit"
    let st := test_streamlit w.streamlit
    let step4 := print_step 4 "Checking Environment Variables"
    let env := check_environment_variables w.getenv
    let step5 := print_step 5 "Creating Environment Template"
    let tmpl := create_env_template w.writeErr
    { ret := true
      output := header ++ step1 ++ ver.2 ++ step2 ++ dep.output ++
        summary ++ step3 ++ st.2 ++ step4 ++ env.1 ++ step5 ++
        tmpl.2.1 ++ finalInstructions
      probes := dep.probes
      pipCalls := dep.pipCalls
      streamlitRan := true
      envReads := env.2
      fileWrite := tmpl.2.2 }

end Setup

/-- Outcome of the `if __name__ == "__main__"` driver's `try` block:
`main()` returned normally, or `KeyboardInterrupt`, or another
exception. -/
inductive MainOutcome where
  | normal (ret : Bool)
  | interrupted
  | raised (msg : String)

/-- Process exit status produced by the top-level driver: it calls
`main()` without inspecting its return, exits `1` on
`KeyboardInterrupt` or any other exception, and otherwise falls off
the end of the script, exiting `0`. -/
def driverExit : MainOutcome → Nat
  | .normal _ => 0
  | .interrupted => 1
  | .raised _ => 1

/-- A world whose interpreter version fails the gate. -/
def badVersionWorld : World :=
  { version := ⟨2, 8, 0⟩
    importOk := fun _ => true
    pipOk := fun _ => true
    streamlit := .completed 0 ""
    getenv := fun _ => none
    writeErr := none }

/-- A world whose interpreter version passes the gate, every import
probe succeeds, and the template write succeeds. -/
def goodWorld : World :=
  { version := ⟨3, 10, 2⟩
    importOk := fun _ => true
    pipOk := fun _ => false
    streamlit := .completed 0 "v"
    getenv := fun _ => none
    writeErr := none }

/-- A world with a compatible interpreter in which only the probe for
`agno` fails and every pip install fails. -/
def oneFailWorld : World :=
  { version := ⟨3, 9, 0⟩
    importOk := fun s => !(s == "agno")
    pipOk := fun _ => false
    streamlit := .raised "timeout"
    getenv := fun _ => some "k"
    writeErr := none }

/-- The boolean substring test agrees with list infix. -/
theorem containsSub_iff (needle : List Char) :
    ∀ hay : List Char, containsSub needle hay = true ↔ needle <:+: hay := by
  intro hay
  induction hay with
  | nil =>
    simp [containsSub, List.isEmpty_iff]
  | cons c rest ih =>
    simp only [containsSub, Bool.or_eq_true, ih, List.isPrefixOf_iff_prefix,
      List.infix_cons_iff]

/-- Each `results` entry is its package's display name paired with
`probe succeeded or pip install succeeded`. -/
theorem dep_results_eq (importOk pipOk : String → Bool) :
    (check_and_install_dependencies importOk pipOk).results =
      required_packages.map (fun e => (e.1, importOk e.2 || pipOk e.1)) := by
  simp only [check_and_install_dependencies, List.map_map]
  apply List.map_congr_left
  intro e _
  rw [Function.comp_apply]
  cases himp : importOk e.2 <;> cases hpip : pipOk e.1 <;>
    simp [processPackage, install_package, himp, hpip]

/-- C1 counterexample: a version triple with `minor = 8 ≥ 8` on which
`check_python_version` nevertheless returns `False`, because its
comparison also requires `major >= 3` — so the gate does not pass
"regardless of the major component". -/
theorem C1_counterexample :
    8 ≥ 8 ∧ (check_python_version ⟨2, 8, 0⟩).1 = false := by
  constructor
  · exact le_refl 8
  · simp [check_python_version]

/-- C1 (amended): for every version triple with `major >= 3` and
`minor >= 8`, `check_python_version` returns `True` without requiring
`major == 3` exactly (any `major ≥ 3` passes); conversely, for every
triple with `minor < 8` it returns `False` even when `major > 3`. -/
theorem C1_version_gate (v : SysVersion) :
    (8 ≤ v.minor → 3 ≤ v.major → (check_python_version v).1 = true) ∧
    (v.minor < 8 → (check_python_version v).1 = false) := by
  constructor
  · intro h8 h3
    have hc : (decide (v.major ≥ 3) && decide (v.minor ≥ 8)) = true := by
      simp [h3, h8]
    simp [check_python_version, hc]
  · intro h
    have hc : (decide (v.major ≥ 3) && decide (v.minor ≥ 8)) = false := by
      simp; omega
    simp [check_python_version, hc]

/-- Witness for C1: the gate passes at `(4, 8, 0)` (major ≠ 3) and
fails at `(5, 7, 1)` (minor < 8 despite major > 3). -/
theorem C1_version_gate_witness :
    (check_python_version ⟨4, 8, 0⟩).1 = true ∧
    (check_python_version ⟨5, 7, 1⟩).1 = false :=
  ⟨(C1_version_gate ⟨4, 8, 0⟩).1 (by decide) (by decide),
   (C1_version_gate ⟨5, 7, 1⟩).2 (by decide)⟩

/-- C2: the driver's exit status after `main` returns normally is `0`
for any boolean return value, in particular when the version gate
failed and `main` returned `False`. -/
theorem C2_exit_status_zero (w : World)
    (h : (check_python_version w.version).1 = false) :
    (Setup.main w).ret = false ∧
    driverExit (.normal (Setup.main w).ret) = 0 ∧
    (∀ b, driverExit (.normal b) = 0) := by
  refine ⟨?_, rfl, fun b => rfl⟩
  simp [Setup.main, h]

/-- Witness for C2: at a concrete failing-version world the run
returns `False` and the exit status is `0`. -/
theorem C2_exit_status_zero_witness :
    (Setup.main badVersionWorld).ret = false ∧
    driverExit (.normal (Setup.main badVersionWorld).ret) = 0 ∧
    (∀ b, driverExit (.normal b) = 0) :=
  C2_exit_status_zero badVersionWorld (by simp [badVersionWorld, check_python_version])

/-- C3: when `check_python_version` fails, `main` returns `False`
immediately and performs nothing further: no import probe, no pip
install, no streamlit subprocess, no environment read, no file
write. -/
theorem C3_fatal_gate_aborts (w : World)
    (h : (check_python_version w.version).1 = false) :
    (Setup.main w).ret = false ∧
    (Setup.main w).probes = [] ∧
    (Setup.main w).pipCalls = [] ∧
    (Setup.main w).streamlitRan = false ∧
    (Setup.main w).envReads = [] ∧
    (Setup.main w).fileWrite = none := by
  simp [Setup.main, h]

/-- Witness for C3: the early abort at a concrete failing-version
world. -/
theorem C3_fatal_gate_aborts_witness :
    (Setup.main badVersionWorld).ret = false ∧
    (Setup.main badVersionWorld).probes = [] ∧
    (Setup.main badVersionWorld).pipCalls = [] ∧
    (Setup.main badVersionWorld).streamlitRan = false ∧
    (Setup.main badVersionWorld).envReads = [] ∧
    (Setup.main badVersionWorld).fileWrite = none :=
  C3_fatal_gate_aborts badVersionWorld (by simp [badVersionWorld, check_python_version])

/-- A lookup in which `GOOGLE_API_KEY` is set to the empty string and
everything else is unset. -/
def lookupEmptyGoogle : String → Option String :=
  fun v => if v == "GOOGLE_API_KEY" then some "" else none

/-- The all-unset environment lookup. -/
def lookupNone : String → Option String := fun _ => none

/-- C9: a variable set to the empty string is handled by
`check_environment_variables` exactly like an unset one — the
truthiness test fails, so the "Not set" warning branch with the
optional/required glyph is taken, not the masked-preview branch. -/
theorem C9_empty_equals_unset (g g' : String → Option String)
    (hset : ∀ v, g v = some "" → g' v = none)
    (hsame : ∀ v, g v ≠ some "" → g' v = g v) :
    check_environment_variables g = check_environment_variables g' ∧
    (∀ var_name description, g var_name = some "" →
      envVarLine g var_name description =
        (if containsOptional description then "⚠️" else "❌") ++
          " " ++ description ++ ": Not set") := by
  constructor
  · unfold check_environment_variables
    have hmap : env_vars.map (fun e => envVarLine g e.1 e.2) =
        env_vars.map (fun e => envVarLine g' e.1 e.2) := by
      apply List.map_congr_left
      intro e _
      by_cases hv : g e.1 = some ""
      · simp only [envVarLine, hv, hset e.1 hv, truthy]
        simp
      · rw [envVarLine, envVarLine, hsame e.1 hv]
    rw [hmap]
  · intro var_name description hg
    have ht : truthy (g var_name) = false := by rw [hg]; rfl
    simp only [envVarLine, ht, Bool.false_eq_true, if_false]

/-- Witness for C9: with `GOOGLE_API_KEY` set to `""`, the scanner's
output is identical to the all-unset scanner's output, and the line
for `GOOGLE_API_KEY` is the required-variable "Not set" warning. -/
theorem C9_empty_equals_unset_witness :
    check_environment_variables lookupEmptyGoogle =
      check_environment_variables lookupNone ∧
    (∀ var_name description, lookupEmptyGoogle var_name = some "" →
      envVarLine lookupEmptyGoogle var_name description =
        (if containsOptional description then "⚠️" else "❌") ++
          " " ++ description ++ ": Not set") :=
  C9_empty_equals_unset lookupEmptyGoogle lookupNone
    (fun _ _ => rfl)
    (by
      intro v hv
      unfold lookupEmptyGoogle at *
      by_cases h : (v == "GOOGLE_API_KEY") = true
      · rw [if_pos h] at hv; exact absurd rfl hv
      · rw [if_neg h]; rfl)

/-- C4: for every entry of the static four-entry `env_vars` list, the
scanner prints the first 8 characters plus an ellipsis for a set
non-empty value longer than 8 characters, the full raw value for a
set non-empty value of length at most 8, and a "Not set" warning
whose glyph is soft exactly when the description contains
"(Optional)" for an unset variable; it prints one line per entry and
the pipeline always continues through the template stage. -/
theorem C4_credential_scanner (getenv : String → Option String)
    (var_name description : String)
    (hmem : (var_name, description) ∈ env_vars) :
    (∀ v, getenv var_name = some v → v ≠ "" → 8 < v.length →
      envVarLine getenv var_name description =
        "✅ " ++ description ++ ": " ++ v.take 8 ++ "...") ∧
    (∀ v, getenv var_name = some v → v ≠ "" → v.length ≤ 8 →
      envVarLine getenv var_name description =
        "✅ " ++ description ++ ": " ++ v) ∧
    (getenv var_name = none →
      envVarLine getenv var_name description =
        (if "(Optional)".toList <:+: description.toList then "⚠️" else "❌") ++
          " " ++ description ++ ": Not set") ∧
    (check_environment_variables getenv).1.length = env_vars.length ∧
    (∀ w : World, (check_python_version w.version).1 = true →
      (Setup.main w).ret = true ∧
      (Setup.main w).fileWrite = (create_env_template w.writeErr).2.2) := by
  refine ⟨?_, ?_, ?_, ?_, ?_⟩
  · intro v hv hne hlen
    have ht : truthy (some v) = true := by simp [truthy, hne]
    simp only [envVarLine, hv, ht, if_true, Option.getD_some]
    rw [if_pos hlen]
    simp [String.append_assoc]
  · intro v hv hne hlen
    have ht : truthy (some v) = true := by simp [truthy, hne]
    have hgt : ¬ (8 < v.length) := by omega
    simp only [envVarLine, hv, ht, if_true, Option.getD_some]
    rw [if_neg hgt]
  · intro hg
    have ht : truthy (getenv var_name) = false := by rw [hg]; rfl
    simp only [envVarLine, ht, Bool.false_eq_true, if_false]
    have hglyph : containsOptional description =
        decide ("(Optional)".toList <:+: description.toList) := by
      rw [containsOptional]
      by_cases h : "(Optional)".toList <:+: description.toList
      · rw [(containsSub_iff _ _).mpr h, decide_eq_true h]
      · rw [decide_eq_false h]
        by_contra hc
        exact h ((containsSub_iff _ _).mp (by revert hc; cases containsSub "(Optional)".toList description.toList <;> simp))
    rw [hglyph]
    by_cases h : "(Optional)".toList <:+: description.toList
    · rw [decide_eq_true h, if_pos h]; simp
    · rw [decide_eq_false h, if_neg h]; simp
  · simp [check_environment_variables]
  · intro w hv
    constructor
    · simp [Setup.main, hv]
    · simp [Setup.main, hv]

/-- Witness for C4: a 20-character `GOOGLE_API_KEY` is shown masked
to its first 8 characters plus ellipsis, and in the good world the
pipeline reaches the template stage. -/
theorem C4_credential_scanner_witness :
    envVarLine (fun _ => some "ABCDEFGHIJKLMNOPQRST") "GOOGLE_API_KEY"
        "Google AI API Key" =
      "✅ " ++ "Google AI API Key" ++ ": " ++
        ("ABCDEFGHIJKLMNOPQRST" : String).take 8 ++ "..." ∧
    (Setup.main goodWorld).ret = true :=
  ⟨((C4_credential_scanner (fun _ => some "ABCDEFGHIJKLMNOPQRST")
      "GOOGLE_API_KEY" "Google AI API Key" (by decide)).1
      "ABCDEFGHIJKLMNOPQRST" rfl (by decide) (by decide)),
   ((C4_credential_scanner (fun _ => some "ABCDEFGHIJKLMNOPQRST")
      "GOOGLE_API_KEY" "Google AI API Key" (by decide)).2.2.2.2 goodWorld
      (by decide)).1⟩

/-- C7: `test_streamlit` has exactly three outcomes and, being a
total function of the subprocess outcome, never raises: exit code 0
reports success and prints the stripped captured stdout verbatim and
returns `True`; a non-zero exit reports a generic failure and returns
`False`; a raising invocation (missing binary or 10-second timeout)
is caught and reported with the exception text, returning `False`.
In all three cases `main` continues to the later stages with the same
results. -/
theorem C7_streamlit_probe (rc : Int) (stdout msg : String) :
    (rc = 0 → test_streamlit (.completed rc stdout) =
      (true, ["✅ Streamlit is working correctly",
              "   Version: " ++ pyStrip stdout])) ∧
    (rc ≠ 0 → test_streamlit (.completed rc stdout) =
      (false, ["❌ Streamlit test failed"])) ∧
    (test_streamlit (.raised msg) =
      (false, ["❌ Streamlit test error: " ++ msg])) ∧
    (∀ w : World, ∀ r : SubprocResult,
      (Setup.main { w with streamlit := r }).ret = (Setup.main w).ret ∧
      (Setup.main { w with streamlit := r }).envReads =
        (Setup.main w).envReads ∧
      (Setup.main { w with streamlit := r }).fileWrite =
        (Setup.main w).fileWrite) := by
  refine ⟨?_, ?_, rfl, ?_⟩
  · intro h
    simp [test_streamlit, h]
  · intro h
    simp [test_streamlit, h]
  · intro w r
    by_cases hv : (check_python_version w.version).1 = true
    · refine ⟨?_, ?_, ?_⟩ <;> simp [Setup.main, hv]
    · have hv' : (check_python_version w.version).1 = false := by
        revert hv; cases (check_python_version w.version).1 <;> simp
      refine ⟨?_, ?_, ?_⟩ <;> simp [Setup.main, hv']

/-- Witness for C7: the three outcomes at concrete subprocess
results, with the stdout `" 1.25.0 \n"` echoed stripped. -/
theorem C7_streamlit_probe_witness :
    test_streamlit (.completed 0 " 1.25.0 \n") =
      (true, ["✅ Streamlit is working correctly", "   Version: 1.25.0"]) ∧
    test_streamlit (.completed 1 "x") =
      (false, ["❌ Streamlit test failed"]) ∧
    test_streamlit (.raised "Command timed out after 10 seconds") =
      (false, ["❌ Streamlit test error: Command timed out after 10 seconds"]) := by
  refine ⟨?_, ?_, ?_⟩
  · rw [(C7_streamlit_probe 0 " 1.25.0 \n" "").1 rfl]
    decide
  · exact (C7_streamlit_probe 1 "x" "").2.1 (by decide)
  · exact (C7_streamlit_probe 0 "" "Command timed out after 10 seconds").2.2.1

/-- C8: `create_env_template` always writes the one hardcoded
template string to the fixed path `.env.template`, so the resulting
file content is `env_template` regardless of any pre-existing
content; the template's non-comment lines are exactly the four
placeholder assignments for the three credentials (Google key,
Qdrant key plus URL, Exa key) and each credential's provisioning URL
appears in a comment line; on a write exception the exception is
caught, failure is reported with its text, `False` is returned, and
`main` still completes. -/
theorem C8_template_writer :
    (∀ prior : Option String,
      applyWrite prior (create_env_template none).2.2 = some env_template) ∧
    (create_env_template none).1 = true ∧
    (create_env_template none).2.2 = some (".env.template", env_template) ∧
    (pyLines env_template).filter isAssignLine =
      ["GOOGLE_API_KEY=your_google_api_key_here",
       "QDRANT_API_KEY=your_qdrant_api_key_here",
       "QDRANT_URL=https://your-cluster.cloud.qdrant.io:6333",
       "EXA_API_KEY=your_exa_api_key_here"] ∧
    "# Get from: https://aistudio.google.com/" ∈ pyLines env_template ∧
    "# Get from: https://cloud.qdrant.io/" ∈ pyLines env_template ∧
    "# Get from: https://exa.ai/" ∈ pyLines env_template ∧
    (∀ e, create_env_template (some e) =
      (false, ["❌ Failed to create .env.template: " ++ e], none)) ∧
    (∀ w : World, (check_python_version w.version).1 = true →
      (Setup.main w).ret = true) := by
  refine ⟨fun prior => rfl, rfl, rfl, by decide, by decide, by decide,
    by decide, fun e => rfl, ?_⟩
  intro w hv
  simp [Setup.main, hv]

/-- Witness for C8: overwriting concrete prior content yields exactly
the template, a concrete write exception is reported and `main` in
the good world still completes. -/
theorem C8_template_writer_witness :
    applyWrite (some "OLD CONTENT") (create_env_template none).2.2 =
      some env_template ∧
    create_env_template (some "Permission denied") =
      (false, ["❌ Failed to create .env.template: Permission denied"], none) ∧
    (Setup.main goodWorld).ret = true :=
  ⟨C8_template_writer.1 (some "OLD CONTENT"),
   C8_template_writer.2.2.2.2.2.2.2.1 "Permission denied",
   C8_template_writer.2.2.2.2.2.2.2.2 goodWorld (by decide)⟩

/-- C5: when the import probe succeeds for every entry of the package
list, `check_and_install_dependencies` performs zero pip install
invocations and every returned result has success `True`, and the
end-of-stage summary `main` prints is exactly the terminal message
"All dependencies are installed" (not the failed-package summary),
which appears in `main`'s output. -/
theorem C5_all_probes_succeed (importOk pipOk : String → Bool)
    (h : ∀ e ∈ required_packages, importOk e.2 = true) :
    (check_and_install_dependencies importOk pipOk).pipCalls = [] ∧
    (∀ r ∈ (check_and_install_dependencies importOk pipOk).results,
      r.2 = true) ∧
    depSummaryOutput (check_and_install_dependencies importOk pipOk).results =
      ["\n✅ All dependencies are installed"] ∧
    (∀ w : World, w.importOk = importOk → w.pipOk = pipOk →
      (check_python_version w.version).1 = true →
      "\n✅ All dependencies are installed" ∈ (Setup.main w).output) := by
  have key : ∀ e ∈ required_packages,
      processPackage importOk pipOk e =
        ((e.1, true), ["✅ " ++ e.1 ++ " is installed"], []) := by
    intro e he
    simp [processPackage, h e he]
  have hres : ∀ r ∈ (check_and_install_dependencies importOk pipOk).results,
      r.2 = true := by
    intro r hr
    simp only [check_and_install_dependencies, List.map_map] at hr
    obtain ⟨e, he, rfl⟩ := List.mem_map.mp hr
    rw [Function.comp_apply, key e he]
  have hsum : depSummaryOutput
      (check_and_install_dependencies importOk pipOk).results =
      ["\n✅ All dependencies are installed"] := by
    have hfail :
        failedPackages (check_and_install_dependencies importOk pipOk).results
          = [] := by
      unfold failedPackages
      rw [List.filter_eq_nil_iff.mpr (fun r hr => by simp [hres r hr])]
      rfl
    simp [depSummaryOutput, hfail]
  refine ⟨?_, hres, hsum, ?_⟩
  · simp only [check_and_install_dependencies, List.map_map]
    rw [List.flatten_eq_nil_iff.mpr]
    intro l hl
    obtain ⟨e, he, rfl⟩ := List.mem_map.mp hl
    rw [Function.comp_apply, key e he]
  · intro w hw hw2 hv
    subst hw
    subst hw2
    simp only [Setup.main, hv, Bool.not_true, Bool.false_eq_true, if_false]
    simp only [List.mem_append]
    rw [hsum]
    simp

/-- Witness for C5: with every import probe succeeding, no pip call
is made, the summary is the blanket success line, and that line
appears in the good world's output. -/
theorem C5_all_probes_succeed_witness :
    (check_and_install_dependencies (fun _ => true) (fun _ => false)).pipCalls
      = [] ∧
    depSummaryOutput
      (check_and_install_dependencies (fun _ => true) (fun _ => false)).results
      = ["\n✅ All dependencies are installed"] ∧
    "\n✅ All dependencies are installed" ∈ (Setup.main goodWorld).output := by
  have h := C5_all_probes_succeed (fun _ => true) (fun _ => false)
    (fun e _ => rfl)
  exact ⟨h.1, h.2.2.1, h.2.2.2 goodWorld rfl rfl (by decide)⟩

/-- C10: `check_and_install_dependencies` returns one
`(display name, success)` pair per entry of the 13-entry list, in
list order, the flag being `True` iff the import probe succeeded or
the pip install exited 0 (after a failed probe the flag is the pip
exit status alone), and the import probe is issued exactly once per
entry — it is not re-attempted after an install. -/
theorem C10_results_shape (importOk pipOk : String → Bool) :
    (check_and_install_dependencies importOk pipOk).results =
      required_packages.map (fun e => (e.1, importOk e.2 || pipOk e.1)) ∧
    (check_and_install_dependencies importOk pipOk).results.map Prod.fst =
      required_packages.map Prod.fst ∧
    (check_and_install_dependencies importOk pipOk).probes =
      required_packages.map Prod.snd ∧
    required_packages.length = 13 := by
  have hres := dep_results_eq importOk pipOk
  refine ⟨hres, ?_, rfl, rfl⟩
  rw [hres, List.map_map]
  apply List.map_congr_left
  intro e _
  rfl

/-- Filtering with the complement of a predicate that is false at
exactly one member of a duplicate-free list yields that member
alone. -/
theorem filter_not_eq_singleton {α : Type} (P : α → Bool) :
    ∀ (L : List α) (e₀ : α), L.Nodup → e₀ ∈ L → P e₀ = false →
      (∀ e ∈ L, e ≠ e₀ → P e = true) →
      L.filter (fun e => !(P e)) = [e₀] := by
  intro L
  induction L with
  | nil => intro e₀ _ hmem; exact absurd hmem (List.not_mem_nil e₀)
  | cons a t ih =>
    intro e₀ hnd hmem hP0 hPother
    rcases List.mem_cons.mp hmem with rfl | hmt
    · rw [List.filter_cons_of_pos (by simp [hP0])]
      rw [List.filter_eq_nil_iff.mpr]
      intro x hx
      have hxa : x ≠ e₀ := fun heq =>
        (List.nodup_cons.mp hnd).1 (heq ▸ hx)
      simp [hPother x (List.mem_cons_of_mem e₀ hx) hxa]
    · have ha : a ≠ e₀ := fun hceq =>
        (List.nodup_cons.mp hnd).1 (hceq ▸ hmt)
      rw [List.filter_cons_of_neg
        (by simp [hPother a (List.mem_cons_self a t) ha])]
      exact ih e₀ (List.nodup_cons.mp hnd).2 hmt hP0
        (fun e he hne => hPother e (List.mem_cons_of_mem a he) hne)

/-- C6: when exactly one entry's import probe fails and its pip
install also fails (every other entry's probe succeeds), the failed
list computed in `main` is exactly that one package, and the summary
printed names it alone and suggests exactly one manual remediation
line `pip install <package>`. -/
theorem C6_single_unresolvable (importOk pipOk : String → Bool)
    (pkg imp : String)
    (hmem : (pkg, imp) ∈ required_packages)
    (hfail : importOk imp = false)
    (hpip : pipOk pkg = false)
    (hothers : ∀ e ∈ required_packages, e ≠ (pkg, imp) →
      importOk e.2 = true) :
    failedPackages (check_and_install_dependencies importOk pipOk).results
      = [pkg] ∧
    depSummaryOutput
      (check_and_install_dependencies importOk pipOk).results =
      ["\n❌ Failed to install packages: " ++ pkg,
       "Please install them manually using:",
       "   pip install " ++ pkg] ∧
    (∀ w : World, w.importOk = importOk → w.pipOk = pipOk →
      (check_python_version w.version).1 = true →
      "   pip install " ++ pkg ∈ (Setup.main w).output) := by
  have hresults := dep_results_eq importOk pipOk
  have hfailed :
      failedPackages (check_and_install_dependencies importOk pipOk).results
        = [pkg] := by
    rw [hresults]
    unfold failedPackages
    rw [List.filter_map, List.map_map]
    have hfil : required_packages.filter
        ((fun r => !r.2) ∘ fun e => (e.1, importOk e.2 || pipOk e.1)) =
        [(pkg, imp)] := by
      exact filter_not_eq_singleton
        (fun e : String × String => importOk e.2 || pipOk e.1)
        required_packages (pkg, imp) (by decide) hmem
        (by simp [hfail, hpip])
        (fun e he hne => by simp [hothers e he hne])
    rw [hfil]
    rfl
  have hsum : depSummaryOutput
      (check_and_install_dependencies importOk pipOk).results =
      ["\n❌ Failed to install packages: " ++ pkg,
       "Please install them manually using:",
       "   pip install " ++ pkg] := by
    rw [depSummaryOutput, hfailed]
    rfl
  refine ⟨hfailed, hsum, ?_⟩
  intro w hw hw2 hv
  subst hw
  subst hw2
  simp only [Setup.main, hv, Bool.not_true, Bool.false_eq_true, if_false]
  simp only [List.mem_append]
  rw [hsum]
  simp

/-- Witness for C6: with only `agno` unresolvable, the failed list is
exactly `["agno"]`, the summary suggests exactly its manual install
line, and that line appears in the run's output. -/
theorem C6_single_unresolvable_witness :
    failedPackages
      (check_and_install_dependencies (fun s => !(s == "agno"))
        (fun _ => false)).results = ["agno"] ∧
    depSummaryOutput
      (check_and_install_dependencies (fun s => !(s == "agno"))
        (fun _ => false)).results =
      ["\n❌ Failed to install packages: " ++ "agno",
       "Please install them manually using:",
       "   pip install " ++ "agno"] ∧
    "   pip install " ++ "agno" ∈ (Setup.main oneFailWorld).output := by
  have h := C6_single_unresolvable (fun s => !(s == "agno"))
    (fun _ => false) "agno" "agno" (by decide) (by decide) rfl (by decide)
  exact ⟨h.1, h.2.1, h.2.2 oneFailWorld rfl rfl (by decide)⟩
